import Mathlib

/-!
Verification of the FaskerAI chat component (src/src/App.jsx).

The component holds five pieces of state (messages, input, loading, apiKey,
sidebarOpen) and exposes two operations: handleSendMessage and clearChat.
We embed the state and both operations shallowly.  The asynchronous fetch is
modelled by passing the outcome of the network interaction (FetchOutcome) as
an explicit parameter, and the two readings of Date.now() taken during one
submission (at message construction before the await, and after the await)
as explicit Nat parameters now1 and now2.  handleSendMessage returns the
settled state together with the HTTP request it issued, if any.
-/

namespace FaskerAI

/-- Sender tag of a chat message: the JSX uses the strings "user" and "bot". -/
inductive Sender where
  | user
  | bot
deriving Repr, DecidableEq

/-- A chat message as built in App.jsx: { id, text, sender }. -/
structure Message where
  id : Nat
  text : String
  sender : Sender
deriving Repr, DecidableEq

/-- The component state: the five useState hooks of FaskerAI. -/
structure AppState where
  messages : List Message
  input : String
  loading : Bool
  apiKey : String
  sidebarOpen : Bool
deriving Repr, DecidableEq

/-- The seeded greeting: initial value of the messages hook (line 6) and the
value clearChat resets to (line 91). -/
def initialMessages : List Message :=
  [{ id := 1, text := "Hello! I\x27m FaskerAI. How can I help you today?", sender := .bot }]

/-- A JSON value, used for the request body and the parsed response body. -/
inductive Json where
  | null
  | bool (b : Bool)
  | num (n : Int)
  | str (s : String)
  | arr (elems : List Json)
  | obj (fields : List (String × Json))

/-- Optional-chaining field access: data.k yields the field if data is an
object with that field, and undefined (none) otherwise. -/
def Json.getField : Json → String → Option Json
  | .obj fields, k => fields.lookup k
  | _, _ => none

/-- Optional-chaining index access: data[i] on an array. -/
def Json.getIdx : Json → Nat → Option Json
  | .arr elems, i => elems.get? i
  | _, _ => none

/-- JS truthiness of a JSON value: null, false, the number zero and the
empty string are falsy; every other value, including empty arrays and
empty objects, is truthy.  (undefined and NaN cannot occur in parsed
JSON; an absent optional-chain result is the none of the Option layer.) -/
def Json.jsTruthy : Json → Bool
  | .null => false
  | .bool b => b
  | .num n => decide (n ≠ 0)
  | .str s => decide (s ≠ "")
  | .arr _ => true
  | .obj _ => true

mutual
/-- Coercion of one array element under Array.prototype.join: null renders
as the empty string inside an array; every other value coerces as String()
does at top level. -/
def jsArrElem : Json → String
  | .null => ""
  | .bool b => if b then "true" else "false"
  | .num n => toString n
  | .str s => s
  | .obj _ => "[object Object]"
  | .arr elems => jsArrString elems

/-- Array.prototype.toString: the elements coerced and joined with commas. -/
def jsArrString : List Json → String
  | [] => ""
  | [v] => jsArrElem v
  | v :: rest => jsArrElem v ++ "," ++ jsArrString rest
end

/-- JS String() coercion of a JSON value: applied by the Error constructor
on line 65 to a non-undefined message argument, and the string under which
a non-string reply value stored as message text is displayed. -/
def Json.jsToString : Json → String
  | .null => "null"
  | .bool b => if b then "true" else "false"
  | .num n => toString n
  | .str s => s
  | .obj _ => "[object Object]"
  | .arr elems => jsArrString elems

/-- JS String.prototype.trim: drop whitespace from both ends (line 34). -/
def jsTrim (s : String) : String :=
  ⟨((s.data.dropWhile Char.isWhitespace).reverse.dropWhile Char.isWhitespace).reverse⟩

/-- data.error?.message (line 65): the raw value of the optional chain,
none when a link of the chain is missing. -/
def errorMessageVal (body : Json) : Option Json :=
  (body.getField "error").bind (fun e => e.getField "message")

/-- data.candidates?.[0]?.content?.parts?.[0]?.text (lines 68-69): the raw
value of the optional chain, none when a link is missing. -/
def replyVal (body : Json) : Option Json :=
  (((((body.getField "candidates").bind (fun c => c.getIdx 0)).bind
      (fun c => c.getField "content")).bind
      (fun c => c.getField "parts")).bind
      (fun p => p.getIdx 0)).bind
      (fun q => q.getField "text")

/-- JS logical-or over an optional-chain result (line 65): an absent or
falsy value falls through to the fallback; a truthy value is surfaced as
its String() coercion, which is what the Error constructor stores as the
message (the identity on strings). -/
def jsOrElse (m : Option Json) (fallback : String) : String :=
  match m with
  | some v => if v.jsTruthy then v.jsToString else fallback
  | none => fallback

/-- Response.ok: status in the 2xx range. -/
def statusOk (status : Nat) : Bool :=
  decide (200 ≤ status ∧ status < 300)

/-- Outcome of the awaited network interaction, from the point of view of the
try block: either fetch or response.json() threw (rejected promise with the
given error message), or a response arrived with a status and a parsed JSON
body. -/
inductive FetchOutcome where
  | fetchError (msg : String)
  | response (status : Nat) (body : Json)

/-- The fixed generative-text endpoint (line 52, before the query string). -/
def endpointBase : String :=
  "https://generativelanguage.googleapis.com/v1beta/models/gemini-2.5-flash:generateContent"

/-- The request URL: endpoint with the credential as the key query parameter. -/
def apiUrl (key : String) : String :=
  endpointBase ++ "?key=" ++ key

/-- The stringified request body (lines 56-58):
contents: [ { parts: [ { text: input } ] } ]. -/
def requestBody (text : String) : Json :=
  .obj [("contents", .arr [.obj [("parts", .arr [.obj [("text", .str text)]])]])]

/-- An outbound HTTP request as issued by the fetch call. -/
structure HttpRequest where
  url : String
  method : String
  body : Json

/-- The try block (lines 62-77): produces the bot reply text, or throws an
error message that the catch block will display.  Mirrors, in order: the
non-ok status check, whose thrown message is the truthy error.message value
(coerced by the Error constructor) or else the status template; then the
truthiness check on the reply path (an absent or falsy value at the fixed
path raises the invalid-format error, and a truthy value is the reply).
The component stores the raw reply value as the message text; since the
model's message text is a string, as in the documented schema, a non-string
truthy reply is represented by its String() coercion, under which it is
displayed (the coercion is the identity on strings). -/
def respondText (env : FetchOutcome) : Except String String :=
  match env with
  | .fetchError msg => .error msg
  | .response status body =>
    if statusOk status = false then
      .error (jsOrElse (errorMessageVal body) ("API request failed with status " ++ toString status))
    else
      match replyVal body with
      | some v =>
          if v.jsTruthy then .ok v.jsToString
          else .error "Invalid response format from API"
      | none => .error "Invalid response format from API"

/-- The message appended on the missing-credential path (lines 37-41). -/
def noKeyMessage (now1 : Nat) : Message :=
  { id := now1, text := "Error: API key not configured. Please check your .env file.", sender := .bot }

/-- The user message appended on the accepted path (line 45). -/
def userMessage (now1 : Nat) (text : String) : Message :=
  { id := now1, text := text, sender := .user }

/-- handleSendMessage (lines 33-88).  Guard: blank-after-trim input or an
in-flight request returns immediately.  Missing credential: append a local
bot error message and return without a request.  Otherwise: append the user
message, clear the input, set loading, issue the POST, then append either
the reply or a wrapped error message, and finally clear loading. -/
def handleSendMessage (s : AppState) (env : FetchOutcome) (now1 now2 : Nat) :
    AppState × Option HttpRequest :=
  if jsTrim s.input = "" ∨ s.loading = true then
    (s, none)
  else if s.apiKey = "" then
    ({ s with messages := s.messages ++ [noKeyMessage now1] }, none)
  else
    let s1 : AppState :=
      { s with messages := s.messages ++ [userMessage now1 s.input], input := "", loading := true }
    let req : HttpRequest :=
      { url := apiUrl s.apiKey, method := "POST", body := requestBody s.input }
    let s2 : AppState :=
      match respondText env with
      | .ok t =>
          { s1 with messages := s1.messages ++ [{ id := now2 + 1, text := t, sender := .bot }] }
      | .error e =>
          { s1 with messages := s1.messages ++
              [{ id := now2 + 1, text := "Sorry, I encountered an error: " ++ e, sender := .bot }] }
    ({ s2 with loading := false }, some req)

/-- clearChat (lines 90-93): reset the messages to the seeded greeting and
close the sidebar; nothing else is touched and no request is issued. -/
def clearChat (s : AppState) : AppState :=
  { s with messages := initialMessages, sidebarOpen := false }

/-- The bot message appended after the network interaction settles: either
the reply (line 70-74) or the wrapped error text from the catch block
(lines 80-84); both use the second clock reading plus one as the id. -/
def responseMessage (env : FetchOutcome) (now2 : Nat) : Message :=
  match respondText env with
  | .ok t => { id := now2 + 1, text := t, sender := .bot }
  | .error e => { id := now2 + 1, text := "Sorry, I encountered an error: " ++ e, sender := .bot }

lemma responseMessage_id (env : FetchOutcome) (now2 : Nat) :
    (responseMessage env now2).id = now2 + 1 := by
  unfold responseMessage; cases respondText env <;> rfl

lemma responseMessage_sender (env : FetchOutcome) (now2 : Nat) :
    (responseMessage env now2).sender = .bot := by
  unfold responseMessage; cases respondText env <;> rfl

lemma sendMessage_guard (s : AppState) (env : FetchOutcome) (n1 n2 : Nat)
    (h : jsTrim s.input = "" ∨ s.loading = true) :
    handleSendMessage s env n1 n2 = (s, none) := by
  unfold handleSendMessage; rw [if_pos h]

lemma sendMessage_noKey (s : AppState) (env : FetchOutcome) (n1 n2 : Nat)
    (htrim : jsTrim s.input ≠ "") (hload : s.loading = false) (hkey : s.apiKey = "") :
    handleSendMessage s env n1 n2
      = ({ s with messages := s.messages ++ [noKeyMessage n1] }, none) := by
  unfold handleSendMessage
  rw [if_neg (by simp [htrim, hload]), if_pos hkey]

lemma sendMessage_accepted (s : AppState) (env : FetchOutcome) (n1 n2 : Nat)
    (htrim : jsTrim s.input ≠ "") (hload : s.loading = false) (hkey : s.apiKey ≠ "") :
    handleSendMessage s env n1 n2
      = ({ s with
            messages := (s.messages ++ [userMessage n1 s.input]) ++ [responseMessage env n2],
            input := "", loading := false },
         some { url := apiUrl s.apiKey, method := "POST", body := requestBody s.input }) := by
  unfold handleSendMessage responseMessage
  rw [if_neg (by simp [htrim, hload]), if_neg hkey]
  cases respondText env <;> rfl

/-- Claim C1, amended: for every input that is non-empty after trimming, with
a credential configured and not awaiting a response, when the endpoint
returns a success body containing a NON-EMPTY reply string R at the fixed
path, submit appends exactly two new messages in order, the user message
with the input text and then the bot message with text R, with no other
message changes.  (The non-emptiness condition is forced by the truthiness
check on line 68: an empty reply string is falsy and is routed to the
invalid-format error instead of being appended.) -/
theorem submit_success_appends_two (s : AppState) (status : Nat) (body : Json)
    (n1 n2 : Nat) (r : String)
    (htrim : jsTrim s.input ≠ "") (hload : s.loading = false) (hkey : s.apiKey ≠ "")
    (hok : statusOk status = true) (hr : replyVal body = some (.str r)) (hne : r ≠ "") :
    (handleSendMessage s (.response status body) n1 n2).1.messages
      = s.messages ++ [userMessage n1 s.input, { id := n2 + 1, text := r, sender := .bot }] := by
  rw [sendMessage_accepted s _ n1 n2 htrim hload hkey]
  have hresp : respondText (.response status body) = .ok r := by
    simp [respondText, hok, hr, Json.jsTruthy, hne, Json.jsToString]
  simp [responseMessage, hresp]

/-- Claim C1 counterexample: the claim as stated quantifies over every reply
string R, but for R the empty string the component appends an
invalid-format error text instead of R.  Concrete input: seeded state,
input 2+2?, credential k, a 200 response whose body holds the empty string
at candidates[0].content.parts[0].text. -/
theorem submit_success_empty_reply_cex :
    (handleSendMessage
        { messages := initialMessages, input := "2+2?", loading := false,
          apiKey := "k", sidebarOpen := false }
        (.response 200 (Json.obj [("candidates", Json.arr [Json.obj [("content",
          Json.obj [("parts", Json.arr [Json.obj [("text", Json.str "")]])])]])]))
        100 100).1.messages.map Message.text
      ≠ initialMessages.map Message.text ++ ["2+2?", ""] := by decide

/-- Claim C1 witness: the worked example from the spec, submit 2+2? with
mocked reply 4. -/
theorem submit_success_appends_two_witness :
    (handleSendMessage
        { messages := initialMessages, input := "2+2?", loading := false,
          apiKey := "k", sidebarOpen := false }
        (.response 200 (Json.obj [("candidates", Json.arr [Json.obj [("content",
          Json.obj [("parts", Json.arr [Json.obj [("text", Json.str "4")]])])]])]))
        100 100).1.messages
      = initialMessages ++ [userMessage 100 "2+2?", { id := 101, text := "4", sender := .bot }] :=
  submit_success_appends_two _ 200 _ 100 100 "4"
    (by decide) rfl (by decide) (by decide) rfl (by decide)

/-- Claim C2: while awaiting a response, or when the pending input is blank
after trimming, submit is a complete no-op: the returned state is the input
state (all five fields unchanged) and no request is issued; hence new
requests are gated while one is in flight. -/
theorem submit_gated_noop (s : AppState) (env : FetchOutcome) (n1 n2 : Nat)
    (h : s.loading = true ∨ jsTrim s.input = "") :
    handleSendMessage s env n1 n2 = (s, none) :=
  sendMessage_guard s env n1 n2 h.symm

/-- Claim C2 witness: submitting while loading is true changes nothing and
issues no request. -/
theorem submit_gated_noop_witness :
    handleSendMessage
        { messages := initialMessages, input := "hi", loading := true,
          apiKey := "k", sidebarOpen := false }
        (.fetchError "boom") 5 6
      = ({ messages := initialMessages, input := "hi", loading := true,
           apiKey := "k", sidebarOpen := false }, none) :=
  submit_gated_noop _ _ 5 6 (Or.inl rfl)

/-- Claim C3: with a non-blank input and no credential configured, submit
appends exactly one message, the fixed API-key error text with the bot
sender, and issues no network request. -/
theorem submit_missing_key_appends_error (s : AppState) (env : FetchOutcome) (n1 n2 : Nat)
    (htrim : jsTrim s.input ≠ "") (hload : s.loading = false) (hkey : s.apiKey = "") :
    handleSendMessage s env n1 n2
        = ({ s with messages := s.messages ++ [noKeyMessage n1] }, none)
      ∧ (noKeyMessage n1).sender = .bot :=
  ⟨sendMessage_noKey s env n1 n2 htrim hload hkey, rfl⟩

/-- Claim C3 witness: a concrete submission with the credential unset. -/
theorem submit_missing_key_appends_error_witness :
    handleSendMessage
        { messages := initialMessages, input := "hi", loading := false,
          apiKey := "", sidebarOpen := false }
        (.fetchError "boom") 7 8
      = ({ messages := initialMessages ++ [noKeyMessage 7], input := "hi", loading := false,
           apiKey := "", sidebarOpen := false }, none)
      ∧ (noKeyMessage 7).sender = .bot :=
  submit_missing_key_appends_error _ _ 7 8 (by decide) rfl rfl

/-- Claim C4: for every submission started while not awaiting a response,
whatever the network outcome (success, malformed success body, non-success
status, or transport failure) and also on the missing-credential path, the
settled state has the loading flag false, and the outcome is converted into
an appended bot-sender message (alone on the missing-credential path,
after the user message otherwise).  handleSendMessage is a total function,
so no exception escapes the submit boundary in the model. -/
theorem submit_always_clears_loading (s : AppState) (env : FetchOutcome) (n1 n2 : Nat)
    (htrim : jsTrim s.input ≠ "") (hload : s.loading = false) :
    (handleSendMessage s env n1 n2).1.loading = false ∧
    ∃ m : Message, m.sender = .bot ∧
      ((handleSendMessage s env n1 n2).1.messages = s.messages ++ [m] ∨
       (handleSendMessage s env n1 n2).1.messages
         = s.messages ++ [userMessage n1 s.input, m]) := by
  by_cases hkey : s.apiKey = ""
  · rw [sendMessage_noKey s env n1 n2 htrim hload hkey]
    exact ⟨hload, noKeyMessage n1, rfl, Or.inl rfl⟩
  · rw [sendMessage_accepted s env n1 n2 htrim hload hkey]
    exact ⟨rfl, responseMessage env n2, responseMessage_sender env n2, Or.inr (by simp)⟩

/-- Claim C4 witness: a transport failure still settles with loading false
and a visible bot message. -/
theorem submit_always_clears_loading_witness :
    (handleSendMessage
        { messages := initialMessages, input := "hi", loading := false,
          apiKey := "k", sidebarOpen := false }
        (.fetchError "Failed to fetch") 9 9).1.loading = false ∧
    ∃ m : Message, m.sender = .bot ∧
      ((handleSendMessage
          { messages := initialMessages, input := "hi", loading := false,
            apiKey := "k", sidebarOpen := false }
          (.fetchError "Failed to fetch") 9 9).1.messages = initialMessages ++ [m] ∨
       (handleSendMessage
          { messages := initialMessages, input := "hi", loading := false,
            apiKey := "k", sidebarOpen := false }
          (.fetchError "Failed to fetch") 9 9).1.messages
         = initialMessages ++ [userMessage 9 "hi", m]) :=
  submit_always_clears_loading _ _ 9 9 (by decide) rfl

/-- Claim C5: clearChat replaces the message sequence with exactly the single
seeded bot greeting, whatever the prior conversation, and closes the
sidebar; the input, loading flag and credential are untouched, and the
operation is a pure state transformation (no request value is produced, so
no network or storage effect exists in the model). -/
theorem clearChat_resets (s : AppState) :
    (clearChat s).messages
        = [{ id := 1, text := "Hello! I\x27m FaskerAI. How can I help you today?",
             sender := .bot }]
      ∧ (clearChat s).sidebarOpen = false
      ∧ (clearChat s).input = s.input
      ∧ (clearChat s).loading = s.loading
      ∧ (clearChat s).apiKey = s.apiKey :=
  ⟨rfl, rfl, rfl, rfl, rfl⟩

/-- Claim C8: every accepted submission issues exactly one request, a POST
to the fixed endpoint with the credential as the key query parameter, whose
body is contents: [ { parts: [ { text: raw input } ] } ] and contains
nothing else (in particular no conversation history). -/
theorem submit_request_shape (s : AppState) (env : FetchOutcome) (n1 n2 : Nat)
    (htrim : jsTrim s.input ≠ "") (hload : s.loading = false) (hkey : s.apiKey ≠ "") :
    (handleSendMessage s env n1 n2).2
      = some { url := endpointBase ++ "?key=" ++ s.apiKey, method := "POST",
               body := Json.obj [("contents", Json.arr [Json.obj [("parts",
                 Json.arr [Json.obj [("text", Json.str s.input)]])]])] } := by
  rw [sendMessage_accepted s env n1 n2 htrim hload hkey]
  rfl

/-- Claim C8 witness: the concrete request for input hi and credential k. -/
theorem submit_request_shape_witness :
    (handleSendMessage
        { messages := initialMessages, input := "hi", loading := false,
          apiKey := "k", sidebarOpen := false }
        (.fetchError "down") 6 6).2
      = some { url := endpointBase ++ "?key=" ++ "k", method := "POST",
               body := Json.obj [("contents", Json.arr [Json.obj [("parts",
                 Json.arr [Json.obj [("text", Json.str "hi")]])]])] } :=
  submit_request_shape _ _ 6 6 (by decide) rfl (by decide)

/-- Claim C9, amended: ids of the messages a submission appends are the
clock readings taken during it (first reading for the user or local error
message, second reading plus one for the bot message), so they are unique
and strictly above all existing ids PROVIDED the first reading exceeds
every id already in the list and the second reading is not below the
first.  Unconditional uniqueness fails: the ids come from Date.now(), and
two submissions in the same millisecond collide (see the counterexample). -/
theorem message_ids_monotonic (s : AppState) (env : FetchOutcome) (n1 n2 : Nat)
    (hprev : ∀ m ∈ s.messages, m.id < n1) (hle : n1 ≤ n2) :
    ∃ extra : List Message,
      (handleSendMessage s env n1 n2).1.messages = s.messages ++ extra ∧
      extra.Pairwise (fun a b => a.id < b.id) ∧
      ∀ a ∈ s.messages, ∀ b ∈ extra, a.id < b.id := by
  by_cases hguard : jsTrim s.input = "" ∨ s.loading = true
  · rw [sendMessage_guard s env n1 n2 hguard]
    exact ⟨[], by simp, by simp, by simp⟩
  · obtain ⟨htrim, hload⟩ := not_or.mp hguard
    rw [Bool.not_eq_true] at hload
    by_cases hkey : s.apiKey = ""
    · rw [sendMessage_noKey s env n1 n2 htrim hload hkey]
      refine ⟨[noKeyMessage n1], rfl, by simp, ?_⟩
      intro a ha b hb
      rw [List.mem_singleton] at hb
      subst hb
      exact hprev a ha
    · rw [sendMessage_accepted s env n1 n2 htrim hload hkey]
      refine ⟨[userMessage n1 s.input, responseMessage env n2], by simp, ?_, ?_⟩
      · refine List.pairwise_pair.mpr ?_
        rw [responseMessage_id]
        show n1 < n2 + 1
        omega
      · intro a ha b hb
        rcases List.mem_pair.mp hb with hb | hb <;> subst hb
        · exact hprev a ha
        · rw [responseMessage_id]
          exact lt_of_lt_of_le (hprev a ha) (by omega)

/-- Claim C9 counterexample: ids come from Date.now(), so two
missing-credential submissions in the same millisecond (both clock
readings 100) produce two messages with the same id 100, violating
uniqueness.  The second submission starts from the settled state of the
first with a new input. -/
theorem message_ids_duplicate_cex :
    ¬ (((handleSendMessage
          { (handleSendMessage
              { messages := initialMessages, input := "a", loading := false,
                apiKey := "", sidebarOpen := false }
              (.fetchError "") 100 100).1 with input := "b" }
          (.fetchError "") 100 100).1.messages.map Message.id).Nodup) := by decide

/-- Claim C9 witness: a successful submission at clock reading 100 on the
seeded state appends ids 100 and 101, both above the seeded id 1. -/
theorem message_ids_monotonic_witness :
    ∃ extra : List Message,
      (handleSendMessage
          { messages := initialMessages, input := "hi", loading := false,
            apiKey := "k", sidebarOpen := false }
          (.fetchError "down") 100 100).1.messages = initialMessages ++ extra ∧
      extra.Pairwise (fun a b => a.id < b.id) ∧
      ∀ a ∈ initialMessages, ∀ b ∈ extra, a.id < b.id :=
  message_ids_monotonic _ _ 100 100 (by decide) (by decide)

/-- Claim C10: on the missing-credential path only the message list changes:
the pending input (the typed text stays in the box), the loading flag, the
sidebar flag and the credential are unchanged, and no request is issued. -/
theorem submit_missing_key_frame (s : AppState) (env : FetchOutcome) (n1 n2 : Nat)
    (htrim : jsTrim s.input ≠ "") (hload : s.loading = false) (hkey : s.apiKey = "") :
    (handleSendMessage s env n1 n2).1.input = s.input ∧
    (handleSendMessage s env n1 n2).1.loading = s.loading ∧
    (handleSendMessage s env n1 n2).1.sidebarOpen = s.sidebarOpen ∧
    (handleSendMessage s env n1 n2).1.apiKey = s.apiKey ∧
    (handleSendMessage s env n1 n2).2 = none := by
  rw [sendMessage_noKey s env n1 n2 htrim hload hkey]
  exact ⟨rfl, rfl, rfl, rfl, rfl⟩

/-- Claim C10 witness: a concrete missing-credential submission leaves the
input, flags and credential as they were. -/
theorem submit_missing_key_frame_witness :
    (handleSendMessage
        { messages := initialMessages, input := "keep me", loading := false,
          apiKey := "", sidebarOpen := true }
        (.fetchError "boom") 11 12).1.input = "keep me" ∧
    (handleSendMessage
        { messages := initialMessages, input := "keep me", loading := false,
          apiKey := "", sidebarOpen := true }
        (.fetchError "boom") 11 12).1.loading = false ∧
    (handleSendMessage
        { messages := initialMessages, input := "keep me", loading := false,
          apiKey := "", sidebarOpen := true }
        (.fetchError "boom") 11 12).1.sidebarOpen = true ∧
    (handleSendMessage
        { messages := initialMessages, input := "keep me", loading := false,
          apiKey := "", sidebarOpen := true }
        (.fetchError "boom") 11 12).1.apiKey = "" ∧
    (handleSendMessage
        { messages := initialMessages, input := "keep me", loading := false,
          apiKey := "", sidebarOpen := true }
        (.fetchError "boom") 11 12).2 = none :=
  submit_missing_key_frame _ _ 11 12 (by decide) rfl rfl

end FaskerAI
